import Mathlib

/-!
Verification of the inventory reorder-prediction core.

The source is a React component whose algorithmic core is `handlePredict`
together with two metric utilities, `calculateReorderPoint` (variant 1)
and `calculateDaysToReplenish` (variant 2). We embed the numeric core
shallowly:

* JS numbers are modelled by `ℚ`; a possibly-missing numeric field
  (`undefined`/`null`) is `Option ℚ`, and the JS idiom `x || 0` is `orZero`.
* A JS comparison `a <= b` where `a` may be `undefined` is `jsLe`
  (comparisons against `undefined` evaluate to `false`).
* The trained classifier is opaque: it is abstracted as a function
  `prob : List (Option ℚ) → ℚ` from a feature row to the sigmoid output.
* `handlePredict` is embedded as a function from the pre-run component
  state to a `RunOutcome`; the possibility that `model.fit` or a
  `model.predict` call rejects is made explicit with the Booleans
  `fitOk` / `predictOk`, and the number of TensorFlow tensors still
  allocated at exit is tracked in `liveBuffers`: `tensor2d` allocates
  one, `dispose` releases one, and each `model.predict` call allocates
  an output tensor that `.data()` reads but that the source never
  disposes. The `predicting` flag is the run state: `predicting = false`
  is the spec state `Idle`.
-/

namespace InventoryForecast

/-- JS `x || 0` applied to a possibly-missing numeric field: a missing
value is coerced to `0`. -/
def orZero (x : Option ℚ) : ℚ := x.getD 0

/-- JS `a <= b` where `a` may be `undefined`: a comparison against
`undefined` is `false` (it goes through `NaN`). -/
def jsLe (a : Option ℚ) (b : ℚ) : Bool :=
  match a with
  | none => false
  | some x => decide (x ≤ b)

/-- A product record from the external catalog. `stock`,
`average_weekly_sales` and `lead_time` may be absent in the fetched JSON. -/
structure ProductRecord where
  name : String
  stock : Option ℚ
  average_weekly_sales : Option ℚ
  lead_time : Option ℚ
deriving DecidableEq, Repr

/-- Source, variant 1 lines 6-12: the reorder point is
`(avgSales || 0) * (leadTime || 0)`. -/
def calculateReorderPoint (avgSales leadTime : Option ℚ) : ℚ :=
  let sales := orZero avgSales
  let time := orZero leadTime
  sales * time

/-- Source, variant 2 lines 192-200: days the current stock lasts.
`stock || 0` and `avgWeeklySales || 0`; zero sales short-circuits to the
sentinel `999`; otherwise `Math.floor(safeStock / (safeSales / 7))`. -/
def calculateDaysToReplenish (stock avgWeeklySales : Option ℚ) : ℚ :=
  let safeStock := orZero stock
  let safeSales := orZero avgWeeklySales
  if safeSales = 0 then 999
  else
    let dailySales := safeSales / 7
    ((⌊safeStock / dailySales⌋ : ℤ) : ℚ)

/-- The feature row `[p.stock, p.average_weekly_sales || 0, p.lead_time || 0]`
(source lines 51-55 and 86). Note that `p.stock` is used as-is: a missing
stock is NOT coerced and the entry stays missing. -/
def featureRow (p : ProductRecord) : List (Option ℚ) :=
  [p.stock, some (orZero p.average_weekly_sales), some (orZero p.lead_time)]

/-- The feature matrix `products.map(p => [p.stock, ...])` of the dataset
builder (source lines 51-55). -/
def trainingInputs (products : List ProductRecord) : List (List (Option ℚ)) :=
  products.map featureRow

/-- Variant 1 training label (source lines 58-61):
`p.stock <= reorderPoint ? 1 : 0`, where the comparison is raw JS `<=`
on the possibly-missing `p.stock`. -/
def labelV1 (p : ProductRecord) : ℚ :=
  if jsLe p.stock (calculateReorderPoint p.average_weekly_sales p.lead_time)
  then 1 else 0

/-- Variant 1 label vector (source lines 58-61). -/
def trainingOutputsV1 (products : List ProductRecord) : List ℚ :=
  products.map labelV1

/-- Variant 2 training label (source lines 246-250):
`daysLeft <= (p.lead_time || 0) ? 1 : 0`. -/
def labelV2 (p : ProductRecord) : ℚ :=
  if calculateDaysToReplenish p.stock p.average_weekly_sales ≤ orZero p.lead_time
  then 1 else 0

/-- Variant 2 label vector (source lines 246-250). -/
def trainingOutputsV2 (products : List ProductRecord) : List ℚ :=
  products.map labelV2

/-- One aggregated output record (source lines 93-101, variant 1). -/
structure PredictionResult where
  name : String
  prediction : String
  stock : Option ℚ
  avgSales : Option ℚ
  leadTime : Option ℚ
  reorder_point : ℚ
deriving DecidableEq, Repr

/-- One iteration of the prediction loop (source lines 85-102): run the
model on the record feature row, threshold `predVal > 0.5`, and echo the
inputs together with the displayed reorder point. -/
def mkPrediction (prob : List (Option ℚ) → ℚ) (p : ProductRecord) :
    PredictionResult :=
  { name := p.name
    prediction := if (1 : ℚ) / 2 < prob (featureRow p) then "Reorder" else "No Reorder"
    stock := p.stock
    avgSales := p.average_weekly_sales
    leadTime := p.lead_time
    reorder_point := calculateReorderPoint p.average_weekly_sales p.lead_time }

/-- The `preds` array built by iterating the catalog in order
(source lines 84-102): one push per product, no filtering. -/
def preds (prob : List (Option ℚ) → ℚ) (products : List ProductRecord) :
    List PredictionResult :=
  products.map (mkPrediction prob)

/-- Tensor accounting of one full pass of the prediction loop (source
lines 85-102), one fold step per record: `tf.tensor2d` allocates the
`inputTensor` (+1), `model.predict` allocates its output tensor (+1) and
`.data()` only reads it, then `inputTensor.dispose()` releases the input
(-1). The output tensor of `model.predict` is never disposed, so each
record nets one live tensor. -/
def inferLoopLiveBuffers (products : List ProductRecord) : ℕ :=
  products.foldl (fun live _ => live + 1 + 1 - 1) 0

/-- The component state touched by a prediction run: the `predicting`
flag (`false` is the spec state `Idle`) and `predictionResults`. -/
structure RunState where
  predicting : Bool
  predictionResults : List PredictionResult
deriving DecidableEq, Repr

/-- Outcome of one `handlePredict` call: final component state, whether
`model.fit` was reached, how many tensors are still allocated at exit,
and whether an exception escaped the (uncaught) async body. -/
structure RunOutcome where
  state : RunState
  trainerInvoked : Bool
  liveBuffers : ℕ
  threw : Bool
deriving DecidableEq, Repr

/-- Source lines 46-105 (variant 1), with the two possible failure points
made explicit. Control flow of the JS:

* `if (products.length === 0) return;` — empty catalog returns before
  `setPredicting(true)`, before any tensor is allocated and before the
  trainer runs.
* otherwise `setPredicting(true)`, `trainXs`/`trainYs` are allocated
  (2 live tensors) and `model.fit` is awaited. There is no try/finally:
  if `fit` rejects (`fitOk = false`) the exception escapes with both
  training tensors still allocated and `predicting` still `true`.
* on fit success both training tensors are disposed, then the loop
  allocates one `inputTensor` per product, `model.predict` allocates an
  output tensor that `.data()` reads but that is never disposed, and
  `inputTensor.dispose()` releases only the input — so on full success
  `inferLoopLiveBuffers products` output tensors stay allocated. If a
  `predict` call throws (`predictOk = false`, modelled at the first
  record, before its output tensor exists) the exception escapes with
  that input tensor allocated and `predicting` still `true`.
* on full success `predictionResults` is set to `preds` and
  `setPredicting(false)` restores `Idle`. -/
def handlePredict (fitOk predictOk : Bool) (prob : List (Option ℚ) → ℚ)
    (products : List ProductRecord) (st : RunState) : RunOutcome :=
  if products.length = 0 then
    { state := st, trainerInvoked := false, liveBuffers := 0, threw := false }
  else
    let st1 : RunState := { st with predicting := true }
    if fitOk then
      if predictOk then
        { state := { predicting := false, predictionResults := preds prob products }
          trainerInvoked := true, liveBuffers := inferLoopLiveBuffers products,
          threw := false }
      else
        { state := st1, trainerInvoked := true, liveBuffers := 1, threw := true }
    else
      { state := st1, trainerInvoked := true, liveBuffers := 2, threw := true }

/-- The only re-entrancy guard in the source is the UI button attribute
`disabled={predicting}` (source line 134), outside the core. -/
def predictButtonDisabled (st : RunState) : Bool := st.predicting

/-- The spec end-to-end example record for variant 1. -/
def widget : ProductRecord :=
  { name := "Widget", stock := some 10, average_weekly_sales := some 7,
    lead_time := some 2 }

/-- The spec end-to-end example record for variant 2. -/
def gadget : ProductRecord :=
  { name := "Gadget", stock := some 21, average_weekly_sales := some 7,
    lead_time := some 5 }

/-- A record whose `stock` field is missing from the fetched JSON. -/
def noStock : ProductRecord :=
  { name := "NoStock", stock := none, average_weekly_sales := some 4,
    lead_time := some 2 }

/-- A product with no recorded sales (missing `average_weekly_sales`),
zero stock, and an ordinary lead time. -/
def zeroSales : ProductRecord :=
  { name := "Dead", stock := some 0, average_weekly_sales := none,
    lead_time := some 5 }

/-- A model abstraction that always outputs probability 7/10. -/
def probHigh : List (Option ℚ) → ℚ := fun _ => 7 / 10

/-- The component state before any run: not predicting, no results. -/
def idleState : RunState := { predicting := false, predictionResults := [] }


/-- Claim C1: with the reorder-point metric, the derived metric equals
`(average_weekly_sales or 0) * (lead_time or 0)`, and for a record whose
stock is the number `s` the variant-1 training label is `1` if
`s <= metric` and `0` otherwise. -/
theorem reorder_point_metric_and_label (p : ProductRecord) (s : ℚ)
    (hs : p.stock = some s) :
    calculateReorderPoint p.average_weekly_sales p.lead_time
        = orZero p.average_weekly_sales * orZero p.lead_time ∧
    labelV1 p
        = (if s ≤ calculateReorderPoint p.average_weekly_sales p.lead_time
           then 1 else 0) := by
  refine ⟨rfl, ?_⟩
  simp [labelV1, jsLe, hs]

/-- Witness for C1 at the spec Widget record: stock 10, metric 7*2 = 14. -/
theorem reorder_point_metric_and_label_witness :
    widget.stock = some 10 ∧
    (calculateReorderPoint widget.average_weekly_sales widget.lead_time
        = orZero widget.average_weekly_sales * orZero widget.lead_time ∧
     labelV1 widget
        = (if (10:ℚ) ≤ calculateReorderPoint widget.average_weekly_sales widget.lead_time
           then 1 else 0)) :=
  ⟨rfl, reorder_point_metric_and_label widget 10 rfl⟩

/-- Claim C2: the days-to-replenish metric is
`floor(stock / (average_weekly_sales / 7))` when the (defaulted) weekly
sales are nonzero, and the sentinel `999` when they are zero or missing. -/
theorem days_to_replenish_formula (stock sales : Option ℚ) :
    (orZero sales ≠ 0 →
      calculateDaysToReplenish stock sales
        = ((⌊orZero stock / (orZero sales / 7)⌋ : ℤ) : ℚ)) ∧
    (orZero sales = 0 → calculateDaysToReplenish stock sales = 999) := by
  constructor
  · intro h
    simp [calculateDaysToReplenish, h]
  · intro h
    simp [calculateDaysToReplenish, h]

/-- Witness for C2 at stock 21, weekly sales 7 (and weekly sales 0). -/
theorem days_to_replenish_formula_witness :
    (orZero (some (7:ℚ)) ≠ 0 ∧
      calculateDaysToReplenish (some 21) (some 7)
        = ((⌊orZero (some (21:ℚ)) / (orZero (some (7:ℚ)) / 7)⌋ : ℤ) : ℚ)) ∧
    (orZero (some (0:ℚ)) = 0 ∧
      calculateDaysToReplenish (some 21) (some 0) = 999) :=
  ⟨⟨by norm_num [orZero],
    (days_to_replenish_formula (some 21) (some 7)).1 (by norm_num [orZero])⟩,
   ⟨by norm_num [orZero],
    (days_to_replenish_formula (some 21) (some 0)).2 (by norm_num [orZero])⟩⟩

/-- Claim C3: the variant-2 training label is `1` iff the days-to-replenish
metric is at most the (defaulted) lead time, and the spec Gadget record
has metric `floor(21 / (7/7)) = 21` and label `0` since `21 > 5`. -/
theorem days_label_rule_and_gadget :
    (∀ p : ProductRecord,
      labelV2 p
        = (if calculateDaysToReplenish p.stock p.average_weekly_sales
              ≤ orZero p.lead_time then 1 else 0)) ∧
    calculateDaysToReplenish gadget.stock gadget.average_weekly_sales = 21 ∧
    labelV2 gadget = 0 := by
  refine ⟨fun p => rfl, ?_, ?_⟩
  · norm_num [gadget, calculateDaysToReplenish, orZero]
  · norm_num [labelV2, gadget, calculateDaysToReplenish, orZero]

/-- Counterexample to C4: a record whose `stock` field is missing yields a
feature row whose first entry is the missing value, not `0` — the builder
does not coerce `stock` (source line 52 uses `p.stock` with no `|| 0`). -/
theorem stock_not_coerced_counterexample :
    trainingInputs [noStock] = [[none, some 4, some 2]] ∧
    trainingInputs [noStock] ≠ [[some 0, some 4, some 2]] := by
  constructor
  · norm_num [trainingInputs, featureRow, noStock, orZero]
  · norm_num [trainingInputs, featureRow, noStock, orZero]
    exact fun hc => Option.noConfusion hc

/-- Claim C4 as amended: the dataset builder produces one feature row per
record, in catalog order, where row `i` is
`[stock as stored (missing stock stays missing), sales or 0, lead or 0]`,
and a label vector of the same length; only `average_weekly_sales` and
`lead_time` are coerced to `0`. -/
theorem dataset_builder_shape (products : List ProductRecord) :
    (trainingInputs products).length = products.length ∧
    (trainingOutputsV1 products).length = products.length ∧
    (∀ i : ℕ, (trainingInputs products)[i]? = (products[i]?).map featureRow) ∧
    (∀ p : ProductRecord,
      featureRow p
        = [p.stock, some (orZero p.average_weekly_sales),
           some (orZero p.lead_time)]) :=
  ⟨by simp [trainingInputs], by simp [trainingOutputsV1],
   fun i => by simp [trainingInputs], fun p => rfl⟩

/-- Claim C5: the aggregator emits exactly one result per record, in
catalog order, echoing the record name, and the decision is `Reorder`
iff the model probability on the record feature row exceeds `0.5`. -/
theorem aggregate_order_and_threshold (prob : List (Option ℚ) → ℚ)
    (products : List ProductRecord) (st : RunState) (hne : products ≠ []) :
    (preds prob products).length = products.length ∧
    (∀ i : ℕ, (preds prob products)[i]? = (products[i]?).map (mkPrediction prob)) ∧
    (∀ p : ProductRecord, (mkPrediction prob p).name = p.name ∧
      (mkPrediction prob p).prediction
        = (if (1:ℚ)/2 < prob (featureRow p) then "Reorder" else "No Reorder")) ∧
    (handlePredict true true prob products st).state.predictionResults
        = preds prob products := by
  refine ⟨by simp [preds], fun i => by simp [preds], fun p => ⟨rfl, rfl⟩, ?_⟩
  cases products with
  | nil => exact absurd rfl hne
  | cons p ps => rfl

/-- Witness for C5 on the two-record catalog `[widget, gadget]` with a
model that always outputs probability `7/10`. -/
theorem aggregate_order_and_threshold_witness :
    ([widget, gadget] : List ProductRecord) ≠ [] ∧
    (preds probHigh [widget, gadget]).length = 2 ∧
    (preds probHigh [widget, gadget])[0]? = some (mkPrediction probHigh widget) ∧
    (preds probHigh [widget, gadget])[1]? = some (mkPrediction probHigh gadget) ∧
    (mkPrediction probHigh widget).prediction = "Reorder" := by
  have h := aggregate_order_and_threshold probHigh [widget, gadget] idleState
    (by simp)
  refine ⟨by simp, by simpa using h.1, by simpa using h.2.1 0,
    by simpa using h.2.1 1, ?_⟩
  rw [(h.2.2.1 widget).2]
  norm_num [probHigh]

/-- Claim C6: running the pipeline on an empty catalog is a no-op: the
state is returned unchanged (Idle stays Idle), the trainer is never
invoked, no tensor is allocated, nothing is thrown, and the result
sequence stays empty. -/
theorem empty_catalog_noop (fitOk predictOk : Bool)
    (prob : List (Option ℚ) → ℚ) :
    (∀ st : RunState,
      handlePredict fitOk predictOk prob [] st = ⟨st, false, 0, false⟩) ∧
    handlePredict fitOk predictOk prob [] idleState
        = ⟨idleState, false, 0, false⟩ ∧
    (handlePredict fitOk predictOk prob [] idleState).state.predictionResults
        = [] ∧
    (handlePredict fitOk predictOk prob [] idleState).trainerInvoked = false ∧
    (handlePredict fitOk predictOk prob [] idleState).threw = false :=
  ⟨fun _ => rfl, rfl, rfl, rfl, rfl⟩

/-- Counterexample to C7: both metric variants can return a negative
number on numeric inputs (negative weekly sales, or negative stock). -/
theorem derive_metric_negative_counterexample :
    calculateReorderPoint (some (-1)) (some 2) = -2 ∧
    calculateDaysToReplenish (some (-7)) (some 7) = -7 ∧
    ¬ (0 ≤ (-2:ℚ)) ∧ ¬ (0 ≤ (-7:ℚ)) :=
  ⟨by norm_num [calculateReorderPoint, orZero],
   by norm_num [calculateDaysToReplenish, orZero], by norm_num, by norm_num⟩

/-- Claim C7 as amended: both metrics are total functions, division by
zero is short-circuited to the sentinel `999`, and the result is
non-negative whenever the (defaulted) inputs are non-negative. -/
theorem derive_metric_total_nonneg_on_nonneg (stock sales lead : Option ℚ)
    (hst : 0 ≤ orZero stock) (hsa : 0 ≤ orZero sales)
    (hld : 0 ≤ orZero lead) :
    0 ≤ calculateReorderPoint sales lead ∧
    0 ≤ calculateDaysToReplenish stock sales ∧
    (orZero sales = 0 → calculateDaysToReplenish stock sales = 999) := by
  refine ⟨mul_nonneg hsa hld, ?_, fun h => by simp [calculateDaysToReplenish, h]⟩
  by_cases h : orZero sales = 0
  · simp [calculateDaysToReplenish, h]
  · have hq : 0 ≤ orZero stock / (orZero sales / 7) :=
      div_nonneg hst (div_nonneg hsa (by norm_num))
    have hfl : (0:ℤ) ≤ ⌊orZero stock / (orZero sales / 7)⌋ :=
      Int.le_floor.mpr (by simpa using hq)
    simp only [calculateDaysToReplenish, if_neg h]
    exact_mod_cast hfl


/-- Counterexample to C8: when `model.fit` rejects on a one-record
catalog, the run never returns to Idle (`predicting` is left `true`), and
a start attempt while a run is already in progress is not rejected by the
core — the trainer is invoked anyway. -/
theorem run_not_returned_to_idle_counterexample :
    (handlePredict false true probHigh [gadget] idleState).state.predicting
        = true ∧
    (handlePredict true true probHigh [gadget]
        { predicting := true, predictionResults := [] }).trainerInvoked
        = true :=
  ⟨rfl, rfl⟩

/-- Claim C8 as amended: the core rejects only an empty catalog; a call
made while a run is in progress still invokes the trainer (re-entrancy is
prevented only by the UI disabling the Predict button while
`predicting`); the state returns to Idle on success, but if training or
an inference call throws, the state is left stuck with `predicting`
`true`. -/
theorem run_state_guard (prob : List (Option ℚ) → ℚ) (p : ProductRecord)
    (ps : List ProductRecord) (st : RunState) :
    (∀ fitOk predictOk : Bool,
      handlePredict fitOk predictOk prob [] st = ⟨st, false, 0, false⟩) ∧
    (handlePredict true true prob (p :: ps) st).state.predicting = false ∧
    (∀ b : Bool,
      (handlePredict false b prob (p :: ps) st).state.predicting = true) ∧
    (handlePredict true false prob (p :: ps) st).state.predicting = true ∧
    (∀ fitOk predictOk : Bool,
      (handlePredict fitOk predictOk prob (p :: ps)
          { st with predicting := true }).trainerInvoked = true) ∧
    predictButtonDisabled { st with predicting := true } = true := by
  refine ⟨fun f g => rfl, rfl, fun b => rfl, rfl, fun f g => ?_, rfl⟩
  cases f <;> cases g <;> rfl

/-- Counterexample to C9: even a fully successful run over one record
leaves a transient buffer allocated — the output tensor that
`model.predict(inputTensor)` allocates at source line 87 is read by
`.data()` but never disposed. On the throwing paths the leak is worse:
a `model.fit` rejection leaves the two training tensors allocated, and
a throwing `predict` call leaves its input tensor allocated. -/
theorem predict_output_tensor_leak_counterexample :
    (handlePredict true true probHigh [gadget] idleState).liveBuffers = 1 ∧
    (handlePredict false true probHigh [gadget] idleState).liveBuffers = 2 ∧
    (handlePredict true false probHigh [gadget] idleState).liveBuffers = 1 ∧
    (1:ℕ) ≠ 0 ∧ (2:ℕ) ≠ 0 :=
  ⟨rfl, rfl, rfl, by norm_num, by norm_num⟩

/-- Per-record accounting of the prediction loop: allocating the input
tensor, allocating the predict output, and disposing only the input nets
exactly one live tensor per record, so a full pass over the catalog
leaves one undisposed output tensor per product. -/
theorem inferLoop_live_eq_length (products : List ProductRecord) :
    inferLoopLiveBuffers products = products.length := by
  have h : ∀ (l : List ProductRecord) (live : ℕ),
      l.foldl (fun a _ => a + 1 + 1 - 1) live = live + l.length := by
    intro l
    induction l with
    | nil => intro live; simp
    | cons x xs ih =>
      intro live
      rw [List.foldl_cons, ih]
      simp [List.length_cons]
      omega
  rw [inferLoopLiveBuffers, h]
  omega

/-- Claim C9 as amended: the buffers the source does dispose (the two
training tensors and each per-inference input tensor) are released only
on the success path, and even on full success the output tensor of each
`model.predict` call is never disposed, so one transient buffer per
record remains allocated; a fit failure leaves the two training tensors
allocated, a throwing predict call leaves its input tensor allocated,
and only the empty catalog ends with zero buffers (none are allocated at
all). -/
theorem buffer_release_paths (prob : List (Option ℚ) → ℚ)
    (p : ProductRecord) (ps : List ProductRecord) (st : RunState) :
    (handlePredict true true prob (p :: ps) st).liveBuffers
        = (p :: ps).length ∧
    (handlePredict true true prob (p :: ps) st).liveBuffers ≠ 0 ∧
    (∀ b : Bool, (handlePredict false b prob (p :: ps) st).liveBuffers = 2) ∧
    (handlePredict true false prob (p :: ps) st).liveBuffers = 1 ∧
    (∀ fitOk predictOk : Bool,
      (handlePredict fitOk predictOk prob [] st).liveBuffers = 0) := by
  have hlen : (handlePredict true true prob (p :: ps) st).liveBuffers
      = (p :: ps).length := by
    show inferLoopLiveBuffers (p :: ps) = (p :: ps).length
    exact inferLoop_live_eq_length (p :: ps)
  refine ⟨hlen, ?_, fun _ => rfl, rfl, fun _ _ => rfl⟩
  rw [hlen]
  simp [List.length_cons]

/-- Claim C10: when the (defaulted) weekly sales are zero, the sentinel
999 is the metric fed to the variant-2 label comparison, so the label is
1 exactly when the (defaulted) lead time is at least 999; for any lead
time below 999 the product is labeled no-reorder regardless of stock. -/
theorem zero_sales_sentinel_label (p : ProductRecord)
    (h : orZero p.average_weekly_sales = 0) :
    calculateDaysToReplenish p.stock p.average_weekly_sales = 999 ∧
    (labelV2 p = 1 ↔ (999:ℚ) ≤ orZero p.lead_time) ∧
    (orZero p.lead_time < 999 → labelV2 p = 0) := by
  have hm : calculateDaysToReplenish p.stock p.average_weekly_sales = 999 := by
    simp [calculateDaysToReplenish, h]
  refine ⟨hm, ?_, ?_⟩
  · simp only [labelV2, hm]
    split_ifs with hc
    · simp [hc]
    · simp [hc]
  · intro hlt
    simp only [labelV2, hm]
    rw [if_neg (not_le.mpr hlt)]

/-- Witness for C10 at a record with missing sales, stock 0 and lead
time 5: the metric is the sentinel and the label is 0. -/
theorem zero_sales_sentinel_label_witness :
    orZero zeroSales.average_weekly_sales = 0 ∧
    calculateDaysToReplenish zeroSales.stock zeroSales.average_weekly_sales
        = 999 ∧
    orZero zeroSales.lead_time < 999 ∧
    labelV2 zeroSales = 0 :=
  ⟨rfl, (zero_sales_sentinel_label zeroSales rfl).1,
   by norm_num [zeroSales, orZero],
   (zero_sales_sentinel_label zeroSales rfl).2.2
     (by norm_num [zeroSales, orZero])⟩

/-- Witness for the amended C7 at stock 21, sales 7 (and sales 0 for the
sentinel clause), lead time 2. -/
theorem derive_metric_total_nonneg_on_nonneg_witness :
    (0 ≤ orZero (some (21:ℚ))) ∧ (0 ≤ orZero (some (7:ℚ))) ∧
    (0 ≤ orZero (some (2:ℚ))) ∧
    0 ≤ calculateReorderPoint (some 7) (some 2) ∧
    0 ≤ calculateDaysToReplenish (some 21) (some 7) ∧
    calculateDaysToReplenish (some 21) (some 0) = 999 := by
  have h1 := derive_metric_total_nonneg_on_nonneg (some 21) (some 7) (some 2)
    (by norm_num [orZero]) (by norm_num [orZero]) (by norm_num [orZero])
  have h2 := derive_metric_total_nonneg_on_nonneg (some 21) (some 0) (some 2)
    (by norm_num [orZero]) (by norm_num [orZero]) (by norm_num [orZero])
  exact ⟨by norm_num [orZero], by norm_num [orZero], by norm_num [orZero],
    h1.1, h1.2.1, h2.2.2 (by norm_num [orZero])⟩

end InventoryForecast
